import Mathlib

set_option autoImplicit false

/-!
Verification of the job-finder aggregation-and-scoring pipeline.

The definitions below are a shallow embedding of the Python sources:
* `src/backend/jobs/scoring.py` (class `JobScorer`, dynamic preference weights),
* `src/jobs/scrapers/multi_source_coordinator.py` (class `MultiSourceCoordinator`),
* the data model of `src/backend/jobs/models.py`.

Python floats are modelled as exact rationals (`ℚ`), Python strings as `String`
with hand-rolled ASCII implementations of `lower`/`strip`/`split`/`in` so that
concrete runs reduce inside the kernel, Python `dict`s as insertion-ordered
association lists, and fallible dictionary accesses (`d[k]`) as `Option`.
-/

/-! ### Python-style string primitives -/

/-- Python `s.lower()` (ASCII). -/
def pyLower (s : String) : String := ⟨s.data.map Char.toLower⟩

/-- Python `s.strip()`. -/
def pyStrip (s : String) : String :=
  ⟨((s.data.dropWhile Char.isWhitespace).reverse.dropWhile Char.isWhitespace).reverse⟩

/-- Python `s.split()`: split on whitespace runs, dropping empty pieces. -/
def pySplitWords (s : String) : List String :=
  ((s.data.splitOnP Char.isWhitespace).filter (fun w => w ≠ [])).map (fun w => ⟨w⟩)

/-- Sub-sequence (contiguous) test on character lists. -/
def subSeq (pat : List Char) : List Char → Bool
  | [] => pat.isEmpty
  | c :: cs => pat.isPrefixOf (c :: cs) || subSeq pat cs

/-- Python `needle in hay` for strings. -/
def pyContains (needle hay : String) : Bool := subSeq needle.data hay.data

/-! ### Data model (`src/backend/jobs/models.py`)

`Job.company_type` inlines `job.company.company_type` (a `CharField` with
`blank=True`, so `""` stands for a missing category).  `salary_min`/`salary_max`
are nullable integers; Python truthiness (`None` and `0` are both falsy) is
modelled by `optTruthy`. -/

structure Job where
  title : String
  description : String
  location : String
  location_type : String
  experience_level : String
  salary_min : Option Int
  salary_max : Option Int
  required_skills : List String
  is_entry_level_friendly : Bool
  company_type : String
  deriving DecidableEq

structure UserPreferences where
  skills : List String
  experience_levels : List String
  preferred_locations : List String
  location_types : List String
  min_salary : Int
  max_salary : Int
  preferred_companies : List String
  skills_weight : ℚ
  experience_weight : ℚ
  location_weight : ℚ
  salary_weight : ℚ
  company_weight : ℚ
  min_job_score_threshold : ℚ
  deriving DecidableEq

/-- Python truthiness of an optional integer (`None` and `0` are falsy). -/
def optTruthy : Option Int → Bool
  | none => false
  | some v => v != 0

/-! ### Skills scoring

`JobScorer.calculate_skills_score` is textually identical in
`src/backend/jobs/scoring.py` (lines 113-154) and `src/jobs/scoring.py`
(lines 89-130); only the skill→weight map differs (derived from the active
`UserPreferences` in the backend copy, hard-coded in the other).  We therefore
parametrise by the map `us : String → Option ℚ`. -/

structure SkillsData where
  score : ℚ
  matching_skills : List String
  missing_skills : List String
  deriving DecidableEq

/-- The `for skill in job.required_skills` loop: accumulates
`matching_skills`, `total_skill_weight` and `matched_weight`. -/
def skillsLoop (us : String → Option ℚ) :
    List String → List String → ℚ → ℚ → List String × ℚ × ℚ
  | [], matching, tw, mw => (matching, tw, mw)
  | skill :: rest, matching, tw, mw =>
    match us skill with
    | some w => skillsLoop us rest (matching ++ [skill]) (tw + w) (mw + w)
    | none => skillsLoop us rest matching (tw + 5) mw

/-- Embeds `JobScorer.calculate_skills_score`. -/
def calculate_skills_score (us : String → Option ℚ) (required_skills : List String) :
    SkillsData :=
  if required_skills = [] then ⟨0, [], []⟩
  else
    let r := skillsLoop us required_skills [] 0 0
    let matching := r.1
    let total_skill_weight := r.2.1
    let matched_weight := r.2.2
    let score0 : ℚ :=
      if total_skill_weight = 0 then 0 else matched_weight / total_skill_weight * 100
    let primary_skills_matched := matching.countP (fun s => decide ((15:ℚ) ≤ (us s).getD 0))
    let score1 := score0 + primary_skills_matched * 5
    let score := min score1 100
    let missing := required_skills.filter (fun s => !(matching.contains s))
    ⟨score, matching, missing⟩

/-! Closed-form sums for the skills loop (the spec-side quantities of C7). -/

/-- Sum of the profile weights of the required skills present in the map. -/
def matchedWeight (us : String → Option ℚ) (req : List String) : ℚ :=
  ((req.filter (fun s => (us s).isSome)).map (fun s => (us s).getD 0)).sum

/-- Number of required skills absent from the map. -/
def unknownCount (us : String → Option ℚ) (req : List String) : Nat :=
  req.countP (fun s => (us s).isNone)

/-- Denominator: matched weight plus default weight 5 per unknown skill. -/
def totalWeight (us : String → Option ℚ) (req : List String) : ℚ :=
  matchedWeight us req + 5 * unknownCount us req

/-- Number of matched occurrences of primary skills (weight ≥ 15). -/
def primaryCount (us : String → Option ℚ) (req : List String) : Nat :=
  req.countP (fun s => (us s).isSome && decide ((15:ℚ) ≤ (us s).getD 0))

/-! ### The per-profile `JobScorer` state (`JobScorer.__init__` and the
`_build_*` helpers of `src/backend/jobs/scoring.py`). -/

/-- Python `dict` insertion: overwrite in place, otherwise append. -/
def dinsert (k : String) (v : ℚ) : List (String × ℚ) → List (String × ℚ)
  | [] => [(k, v)]
  | (k1, v1) :: rest => if k1 = k then (k, v) :: rest else (k1, v1) :: dinsert k v rest

/-- Python `dict` lookup (`d[k]` / `d.get(k)`). -/
def dlookup (k : String) : List (String × ℚ) → Option ℚ
  | [] => none
  | (k1, v1) :: rest => if k1 = k then some v1 else dlookup k rest

/-- Embeds `JobScorer._build_skills_dict` as a lookup function: every listed skill
gets the equal share `100 / len(skills)`; an empty skill list gives the empty
map. -/
def user_skills_map (P : UserPreferences) (skill : String) : Option ℚ :=
  if P.skills.contains skill then some (100 / (P.skills.length : ℚ)) else none

/-- Embeds `JobScorer._build_location_preferences`. -/
def build_location_preferences (P : UserPreferences) : List (String × ℚ) :=
  let d1 := P.preferred_locations.foldl
    (fun d location =>
      if pyLower location = "remote" then dinsert "Remote" 10 d
      else dinsert location 8 d) []
  P.location_types.foldl
    (fun d lt =>
      if lt = "remote" then dinsert "Remote" 10 d
      else if lt = "hybrid" then dinsert "Hybrid" 8 d
      else if lt = "onsite" then
        P.preferred_locations.foldl
          (fun e location =>
            if pyLower location ≠ "remote" ∧ pyLower location ≠ "hybrid" then
              dinsert location 6 e
            else e) d
      else d) d1

structure SalaryTarget where
  min_acceptable : Int
  target_min : Int
  target_max : Int
  dream : Int

/-- Embeds `JobScorer._build_salary_target`; `int(max_salary * 1.3)` modelled as the
floor of the exact product (the claims never touch the `dream` boundary, so
binary-float rounding of `1.3` is immaterial). -/
def build_salary_target (P : UserPreferences) : SalaryTarget :=
  ⟨P.min_salary, P.min_salary, P.max_salary, Int.floor ((P.max_salary : ℚ) * 13 / 10)⟩

/-- Embeds `JobScorer._build_company_preferences` followed by `.get(company_type, 0)`:
`'unknown'` is overwritten to 3 after the loop, every lower-cased preferred
company type maps to 8, anything else defaults to 0. -/
def company_type_weight (P : UserPreferences) (ct : String) : ℚ :=
  if ct = "unknown" then 3
  else if (P.preferred_companies.map pyLower).contains ct then 8
  else 0

/-- Embeds `JobScorer._build_experience_preferences` followed by `.get(level, 0)`:
`entry`/`junior`/`mid` keys exist only when listed (15/12/8), `senior` always
exists (5 when listed, −20 otherwise), `lead`/`manager` default to −30/−40. -/
def experience_level_weight (P : UserPreferences) (lv : String) : ℚ :=
  if lv = "entry" then (if P.experience_levels.contains "entry" then 15 else 0)
  else if lv = "junior" then (if P.experience_levels.contains "junior" then 12 else 0)
  else if lv = "mid" then (if P.experience_levels.contains "mid" then 8 else 0)
  else if lv = "senior" then (if P.experience_levels.contains "senior" then 5 else -20)
  else if lv = "lead" then -30
  else if lv = "manager" then -40
  else 0

/-! ### Component scores (`src/backend/jobs/scoring.py`) -/

def entry_keywords : List String := ["entry", "junior", "new grad", "graduate", "associate"]

/-- Embeds `JobScorer.calculate_experience_score` (lines 156-178). -/
def calculate_experience_score (P : UserPreferences) (job : Job) : ℚ :=
  let base0 := experience_level_weight P job.experience_level
  let base1 := if job.is_entry_level_friendly then base0 + 10 else base0
  let title_lower := pyLower job.title
  let base2 := if entry_keywords.any (fun k => pyContains k title_lower) then base1 + 5 else base1
  let desc_lower := pyLower job.description
  let base3 :=
    if pyContains "5+ years" desc_lower || pyContains "5 years" desc_lower then base2 - 20
    else base2
  let base4 :=
    if pyContains "3+ years" desc_lower || pyContains "3 years" desc_lower then base3 - 10
    else base3
  max 0 (min base4 100)

/-- Embeds `JobScorer.calculate_location_score` (lines 180-195).  The accesses
`self.location_preferences['Remote']` / `['Hybrid']` raise `KeyError` when the
key is absent, hence the `Option` result. -/
def calculate_location_score (P : UserPreferences) (job : Job) : Option ℚ :=
  let prefs := build_location_preferences P
  let location_text := pyLower (job.location ++ " " ++ job.location_type)
  let base := prefs.foldl
    (fun acc kv => if pyContains (pyLower kv.1) location_text then max acc kv.2 else acc) 0
  if job.location_type = "remote" then (dlookup "Remote" prefs).map (fun w => max base w)
  else if job.location_type = "hybrid" then (dlookup "Hybrid" prefs).map (fun w => max base w)
  else some base

/-- Embeds `JobScorer.calculate_salary_score` (lines 197-215).  The `getD 0` defaults
are unreachable: the guard ensures the chosen side is a truthy `some`. -/
def calculate_salary_score (P : UserPreferences) (job : Job) : ℚ :=
  if !optTruthy job.salary_min && !optTruthy job.salary_max then 5
  else
    let st := build_salary_target P
    let salary : Int :=
      if optTruthy job.salary_min then job.salary_min.getD 0 else job.salary_max.getD 0
    if salary < st.min_acceptable then 0
    else if salary < st.target_min then 5
    else if salary ≤ st.target_max then 10
    else if salary ≤ st.dream then 15
    else 15

/-- Embeds `JobScorer.calculate_company_score` (lines 217-219): `company_type or
'unknown'` then dictionary lookup with default 0. -/
def calculate_company_score (P : UserPreferences) (job : Job) : ℚ :=
  company_type_weight P (if job.company_type = "" then "unknown" else job.company_type)

/-! ### Total score and recommendation flags
(`JobScorer.calculate_total_score`, lines 221-264). -/

structure ScoreResult where
  skills_score : ℚ
  experience_score : ℚ
  location_score : ℚ
  salary_score : ℚ
  company_score : ℚ
  total_score : ℚ
  matching_skills : List String
  missing_skills : List String
  meets_minimum_requirements : Bool
  recommended_for_application : Bool
  deriving DecidableEq

def calculate_total_score (P : UserPreferences) (job : Job) : Option ScoreResult :=
  let skills_data := calculate_skills_score (user_skills_map P) job.required_skills
  let skills_score := skills_data.score
  let experience_score := calculate_experience_score P job
  (calculate_location_score P job).map (fun location_score =>
    let salary_score := calculate_salary_score P job
    let company_score := calculate_company_score P job
    let total_score :=
      skills_score * (P.skills_weight / 100) +
      experience_score * (P.experience_weight / 100) +
      location_score * (P.location_weight / 100) +
      salary_score * (P.salary_weight / 100) +
      company_score * (P.company_weight / 100)
    let min_threshold := P.min_job_score_threshold
    let meets_minimum :=
      decide ((30:ℚ) ≤ skills_score) && decide ((0:ℚ) ≤ experience_score) &&
        decide (min_threshold ≤ total_score)
    let recommended := decide (min_threshold + 20 ≤ total_score) && meets_minimum
    ⟨skills_score, experience_score, location_score, salary_score, company_score,
      total_score, skills_data.matching_skills, skills_data.missing_skills,
      meets_minimum, recommended⟩)

/-- The total the spec prescribes for C1: components weighted by
`weight / (sum of the five weights)`. -/
def spec_normalized_total (P : UserPreferences) (job : Job) : Option ℚ :=
  let wsum := P.skills_weight + P.experience_weight + P.location_weight +
    P.salary_weight + P.company_weight
  (calculate_total_score P job).map (fun r =>
    r.skills_score * (P.skills_weight / wsum) +
    r.experience_score * (P.experience_weight / wsum) +
    r.location_score * (P.location_weight / wsum) +
    r.salary_score * (P.salary_weight / wsum) +
    r.company_score * (P.company_weight / wsum))

/-! ### Coordinator (`src/jobs/scrapers/multi_source_coordinator.py`)

Raw scraped records are permissive dictionaries; the fields the coordinator
reads are `title`, `company`, `location`, `source_url` (defaulting to `""`)
and `salary_min` (defaulting to `0`). -/

structure RawJob where
  title : String
  company : String
  location : String
  source_url : String
  salary_min : Int
  deriving DecidableEq

/-- Character-list comparison used only to canonicalise Python `set`s of
title words into sorted lists. -/
def charListLe : List Char → List Char → Bool
  | [], _ => true
  | _ :: _, [] => false
  | a :: as, b :: bs => if a = b then charListLe as bs else decide (a.val < b.val)

def strLe (a b : String) : Bool := charListLe a.data b.data

def insertSorted (x : String) : List String → List String
  | [] => [x]
  | y :: ys => if strLe x y then x :: y :: ys else y :: insertSorted x ys

def sortStrings : List String → List String
  | [] => []
  | x :: xs => insertSorted x (sortStrings xs)

/-- The key of `MultiSourceCoordinator._deduplicate_jobs` (lines 136-158):
the `set` of the first three words of the lower-cased stripped title
(canonicalised as a sorted duplicate-free list), with the lower-cased
stripped company and location. -/
def dedupKey (job : RawJob) : List String × String × String :=
  let title := pyStrip (pyLower job.title)
  let company := pyStrip (pyLower job.company)
  let location := pyStrip (pyLower job.location)
  let title_words := (pySplitWords title).take 3
  (sortStrings title_words.dedup, company, location)

/-- The `for job in jobs` loop of `_deduplicate_jobs`, carrying the
`seen_combinations` set. -/
def dedupLoop : List RawJob → List (List String × String × String) → List RawJob
  | [], _ => []
  | job :: rest, seen =>
    if dedupKey job ∈ seen then dedupLoop rest seen
    else job :: dedupLoop rest (dedupKey job :: seen)

/-- Embeds `MultiSourceCoordinator._deduplicate_jobs`. -/
def deduplicate_jobs (jobs : List RawJob) : List RawJob := dedupLoop jobs []

/-- Embeds `MultiSourceCoordinator._matches_user_preferences` (lines 185-203);
the float literal `1.2` is modelled exactly as `12/10`. -/
def matches_user_preferences (P : UserPreferences) (job : RawJob) : Bool :=
  let job_min_salary := job.salary_min
  if job_min_salary != 0 && decide ((P.max_salary : ℚ) * 12 / 10 < (job_min_salary : ℚ)) then
    false
  else
    let job_location := pyLower job.location
    let preferred := P.preferred_locations.map pyLower
    if preferred ≠ [] then
      let location_match := preferred.any (fun p => pyContains p job_location)
      if !location_match && !(pyContains "remote" job_location) &&
          !(preferred.contains "remote") then false
      else true
    else true

/-- Embeds `MultiSourceCoordinator._filter_quality_jobs` (lines 160-183): the four
`continue` guards, in source order. -/
def filter_quality_jobs (userPrefs : Option UserPreferences) : List RawJob → List RawJob
  | [] => []
  | job :: rest =>
    if job.title = "" || job.company = "" then filter_quality_jobs userPrefs rest
    else if job.source_url = "" || job.source_url = "https://example.com/job" then
      filter_quality_jobs userPrefs rest
    else if pyContains "example.com" job.source_url then filter_quality_jobs userPrefs rest
    else if (match userPrefs with
             | some P => !(matches_user_preferences P job)
             | none => false) then filter_quality_jobs userPrefs rest
    else job :: filter_quality_jobs userPrefs rest

/-- The outcome of one adapter inside the per-source `try` of
`MultiSourceCoordinator.scrape_all_sources`: the scraped records, or the
message of whatever exception the adapter raised. -/
def sourceJobs (maxPerSource : Nat) : Except String (List RawJob) → List RawJob
  | Except.ok jobs => jobs.take maxPerSource
  | Except.error _ => []

/-- Embeds `MultiSourceCoordinator.scrape_all_sources` (lines 35-72): each source is
attempted in isolation (`except` logs and continues), successful results are
truncated to `max_jobs_per_source` and concatenated, then deduplicated. -/
def scrape_all_sources (sources : List (Except String (List RawJob)))
    (maxPerSource : Nat) : List RawJob :=
  deduplicate_jobs ((sources.map (sourceJobs maxPerSource)).flatten)

/-! ### Concrete profiles, jobs and raw records used in the closed theorems. -/

/-- The 40/40/20 skill→weight map of the spec's Scenario 1. -/
def scenario1_skills (s : String) : Option ℚ :=
  if s = "Python" then some 40
  else if s = "Django" then some 40
  else if s = "React" then some 20
  else none

def scenario1_job_skills : List String := ["Python", "Django", "PostgreSQL"]

/-- A profile with the model's default category weights (sum 100). -/
def profileA : UserPreferences :=
  { skills := ["Python"]
    experience_levels := ["entry", "junior"]
    preferred_locations := []
    location_types := []
    min_salary := 70000
    max_salary := 120000
    preferred_companies := []
    skills_weight := 45
    experience_weight := 25
    location_weight := 15
    salary_weight := 10
    company_weight := 5
    min_job_score_threshold := 40 }

def jobA : Job :=
  { title := "dev"
    description := ""
    location := "nyc"
    location_type := "onsite"
    experience_level := "entry"
    salary_min := some 80000
    salary_max := none
    required_skills := ["Python"]
    is_entry_level_friendly := false
    company_type := "" }

/-- The value `calculate_total_score profileA jobA` computes to. -/
def scoreA : ScoreResult :=
  { skills_score := 100
    experience_score := 15
    location_score := 0
    salary_score := 10
    company_score := 3
    total_score := 499/10
    matching_skills := ["Python"]
    missing_skills := []
    meets_minimum_requirements := true
    recommended_for_application := false }

/-- C1 counterexample profile: all five category weights 100 (sum 500). -/
def profileW100 : UserPreferences :=
  { profileA with
    skills := []
    skills_weight := 100
    experience_weight := 100
    location_weight := 100
    salary_weight := 100
    company_weight := 100 }

/-- C1 counterexample job (no skills, no salary data). -/
def jobPlain : Job := { jobA with required_skills := [], salary_min := none }

/-- C2 counterexample profile: nonnegative weights summing past 100. -/
def profileW200 : UserPreferences :=
  { profileA with
    skills_weight := 200
    experience_weight := 0
    location_weight := 0
    salary_weight := 0
    company_weight := 0 }

/-- C5 failing-input profile: accepted levels exactly entry/junior. -/
def profileSenior : UserPreferences := { profileA with min_job_score_threshold := 10 }

/-- C5 failing-input job: a senior posting that is otherwise a strong match. -/
def jobSenior : Job := { jobA with experience_level := "senior" }

def rawA : RawJob :=
  { title := "Python Dev", company := "Acme", location := "NYC"
    source_url := "https://jobs.acme.io/1", salary_min := 0 }

/-- Same `source_url` as `rawA`, different title words. -/
def rawB : RawJob :=
  { title := "Java Dev", company := "Acme", location := "NYC"
    source_url := "https://jobs.acme.io/1", salary_min := 0 }

/-- Same dedup key as `rawA` (case/whitespace only), different `source_url`. -/
def rawC : RawJob :=
  { title := "  python DEV ", company := "ACME", location := "nyc"
    source_url := "https://jobs.acme.io/2", salary_min := 0 }

/-- A record with a title but no company, carrying a valid URL. -/
def rawNoCompany : RawJob :=
  { title := "Engineer", company := "", location := "NYC"
    source_url := "https://jobs.acme.io/3", salary_min := 0 }

/-- A skill map whose only entry carries weight 0 (C10 witness input). -/
def zero_weight_skills (s : String) : Option ℚ := if s = "X" then some 0 else none

/-- The value `calculate_total_score profileW100 jobPlain` computes to: the
components sum to 23 and each weight contributes as `100/100 = 1`. -/
def scoreW100 : ScoreResult :=
  { skills_score := 0
    experience_score := 15
    location_score := 0
    salary_score := 5
    company_score := 3
    total_score := 23
    matching_skills := []
    missing_skills := []
    meets_minimum_requirements := false
    recommended_for_application := false }

/-- The value `calculate_total_score profileW200 jobA` computes to: the skills
component alone contributes `100 * (200/100) = 200`. -/
def scoreW200 : ScoreResult :=
  { skills_score := 100
    experience_score := 15
    location_score := 0
    salary_score := 10
    company_score := 3
    total_score := 200
    matching_skills := ["Python"]
    missing_skills := []
    meets_minimum_requirements := true
    recommended_for_application := true }

/-- The value `calculate_total_score profileSenior jobSenior` computes to:
experience is clamped to 0 yet `meets_minimum_requirements` is `true`. -/
def scoreSenior : ScoreResult :=
  { skills_score := 100
    experience_score := 0
    location_score := 0
    salary_score := 10
    company_score := 3
    total_score := 923/20
    matching_skills := ["Python"]
    missing_skills := []
    meets_minimum_requirements := true
    recommended_for_application := true }

/-! ## Theorems

### The skills loop computes the closed-form sums -/

theorem skillsLoop_spec (us : String → Option ℚ) (req : List String) :
    ∀ (m : List String) (tw mw : ℚ),
      skillsLoop us req m tw mw =
        (m ++ req.filter (fun s => (us s).isSome),
          tw + totalWeight us req, mw + matchedWeight us req) := by
  induction req with
  | nil =>
    intro m tw mw
    simp [skillsLoop, totalWeight, matchedWeight, unknownCount]
  | cons skill rest ih =>
    intro m tw mw
    cases hus : us skill with
    | some w =>
      have h1 : matchedWeight us (skill :: rest) = w + matchedWeight us rest := by
        simp [matchedWeight, hus]
      have h2 : unknownCount us (skill :: rest) = unknownCount us rest := by
        simp [unknownCount, List.countP_cons, hus]
      simp only [skillsLoop, hus, ih, totalWeight, h1, h2, List.filter_cons]
      refine Prod.ext ?_ (Prod.ext ?_ ?_) <;> simp [hus] <;> ring
    | none =>
      have h1 : matchedWeight us (skill :: rest) = matchedWeight us rest := by
        simp [matchedWeight, hus]
      have h2 : (unknownCount us (skill :: rest) : ℚ) = unknownCount us rest + 1 := by
        simp [unknownCount, List.countP_cons, hus]
      simp only [skillsLoop, hus, ih, totalWeight, h1, List.filter_cons]
      refine Prod.ext ?_ (Prod.ext ?_ ?_) <;> simp [hus, h2] <;> ring

/-- Full characterisation of `calculate_skills_score` by the closed-form
quantities `matchedWeight`, `totalWeight` and `primaryCount`. -/
theorem calculate_skills_score_spec (us : String → Option ℚ) (req : List String) :
    calculate_skills_score us req =
      ⟨min ((if totalWeight us req = 0 then 0
              else matchedWeight us req / totalWeight us req * 100)
            + (primaryCount us req : ℚ) * 5) 100,
        req.filter (fun s => (us s).isSome),
        req.filter (fun s => !((req.filter (fun t => (us t).isSome)).contains s))⟩ := by
  cases req with
  | nil =>
    simp [calculate_skills_score, totalWeight, matchedWeight, unknownCount, primaryCount]
  | cons a l =>
    have hcount : (List.filter (fun s => (us s).isSome) (a :: l)).countP
        (fun s => decide ((15:ℚ) ≤ (us s).getD 0)) = primaryCount us (a :: l) := by
      rw [List.countP_filter, primaryCount]
      congr 1
      funext s
      exact Bool.and_comm _ _
    simp only [calculate_skills_score, skillsLoop_spec, List.nil_append, zero_add,
      reduceCtorEq, if_neg (List.cons_ne_nil a l), hcount, if_false]

theorem matchedWeight_nonneg (us : String → Option ℚ) (req : List String)
    (hnn : ∀ s, 0 ≤ (us s).getD 0) : 0 ≤ matchedWeight us req := by
  refine List.sum_nonneg ?_
  intro x hx
  rcases List.mem_map.mp hx with ⟨s, _, rfl⟩
  exact hnn s

theorem totalWeight_nonneg (us : String → Option ℚ) (req : List String)
    (hnn : ∀ s, 0 ≤ (us s).getD 0) : 0 ≤ totalWeight us req := by
  have h1 := matchedWeight_nonneg us req hnn
  have h2 : (0:ℚ) ≤ 5 * unknownCount us req := by positivity
  unfold totalWeight
  linarith

theorem skills_score_bounds (us : String → Option ℚ) (req : List String)
    (hnn : ∀ s, 0 ≤ (us s).getD 0) :
    0 ≤ (calculate_skills_score us req).score ∧ (calculate_skills_score us req).score ≤ 100 := by
  rw [calculate_skills_score_spec]
  have hbase : (0:ℚ) ≤ (if totalWeight us req = 0 then 0
      else matchedWeight us req / totalWeight us req * 100) := by
    split
    · exact le_refl 0
    · have h1 := matchedWeight_nonneg us req hnn
      have h2 := totalWeight_nonneg us req hnn
      positivity
  have hprim : (0:ℚ) ≤ (primaryCount us req : ℚ) * 5 := by positivity
  constructor
  · exact le_min (by linarith) (by norm_num)
  · exact min_le_right _ _

/-- C7.  For a posting with a nonempty required-skills list (and a nonzero
accumulated denominator), the skills score is
`min(100, matched_weight / total_weight * 100 + 5 * primary_matches)`, where
`matchedWeight` sums the profile weights of the required skills present in the
map, `totalWeight` adds default weight 5 per absent skill, and a matched skill
is primary when its weight is at least 15.  The spec's Scenario 1 instance
(job skills Python/Django/PostgreSQL against Python 40 / Django 40 / React 20)
yields matched weight 80, total weight 85 and two primary matches. -/
theorem skills_score_formula (us : String → Option ℚ) (req : List String)
    (hne : req ≠ []) (htw : totalWeight us req ≠ 0) :
    (calculate_skills_score us req).score =
      min 100 (matchedWeight us req / totalWeight us req * 100
        + 5 * (primaryCount us req : ℚ)) ∧
    matchedWeight scenario1_skills scenario1_job_skills = 80 ∧
    totalWeight scenario1_skills scenario1_job_skills = 85 ∧
    primaryCount scenario1_skills scenario1_job_skills = 2 ∧
    (calculate_skills_score scenario1_skills scenario1_job_skills).score =
      min 100 ((80:ℚ) / 85 * 100 + 5 * 2) := by
  have hmw : matchedWeight scenario1_skills scenario1_job_skills = 80 := by
    simp [matchedWeight, scenario1_skills, scenario1_job_skills]
    norm_num
  have hunk : unknownCount scenario1_skills scenario1_job_skills = 1 := by
    simp [unknownCount, scenario1_skills, scenario1_job_skills, List.countP_cons]
  have htw1 : totalWeight scenario1_skills scenario1_job_skills = 85 := by
    rw [totalWeight, hmw, hunk]
    norm_num
  have hpc : primaryCount scenario1_skills scenario1_job_skills = 2 := by
    simp [primaryCount, scenario1_skills, scenario1_job_skills, List.countP_cons]
    norm_num
  refine ⟨?_, hmw, htw1, hpc, ?_⟩
  · rw [calculate_skills_score_spec, if_neg htw]
    simp only [min_comm]
    ring_nf
  · rw [calculate_skills_score_spec, htw1, hmw, hpc, if_neg (by norm_num)]
    simp only [min_comm]
    norm_num

/-- Closed witness for the skills-score formula, at the spec's Scenario 1. -/
theorem skills_score_formula_witness :
    scenario1_job_skills ≠ [] ∧
    totalWeight scenario1_skills scenario1_job_skills ≠ 0 ∧
    (calculate_skills_score scenario1_skills scenario1_job_skills).score =
      min 100 (matchedWeight scenario1_skills scenario1_job_skills /
        totalWeight scenario1_skills scenario1_job_skills * 100
        + 5 * (primaryCount scenario1_skills scenario1_job_skills : ℚ)) := by
  have h1 : scenario1_job_skills ≠ [] := by simp [scenario1_job_skills]
  have h2 : totalWeight scenario1_skills scenario1_job_skills ≠ 0 := by
    have : totalWeight scenario1_skills scenario1_job_skills = 85 := by
      simp [totalWeight, matchedWeight, unknownCount, scenario1_skills, scenario1_job_skills]
      norm_num
    rw [this]; norm_num
  exact ⟨h1, h2, (skills_score_formula scenario1_skills scenario1_job_skills h1 h2).1⟩

/-- C10.  The skills score is total: an empty required-skills list yields score
0 with empty matching/missing lists, and whenever the accumulated total skill
weight is zero (weights nonnegative), the guarded division is skipped and the
score is 0. -/
theorem skills_score_total_no_div_by_zero (us : String → Option ℚ) (req : List String)
    (hnn : ∀ s, 0 ≤ (us s).getD 0) (htw : totalWeight us req = 0) :
    calculate_skills_score us [] = ⟨0, [], []⟩ ∧
    (calculate_skills_score us req).score = 0 := by
  constructor
  · simp [calculate_skills_score]
  · have hmw : matchedWeight us req = 0 := by
      have h1 := matchedWeight_nonneg us req hnn
      have h2 : (0:ℚ) ≤ 5 * unknownCount us req := by positivity
      have := htw
      unfold totalWeight at this
      linarith
    have hpc : primaryCount us req = 0 := by
      rw [primaryCount, List.countP_eq_zero]
      intro s hs
      intro hcontra
      rcases Bool.and_eq_true_iff.mp hcontra with ⟨hsome, hge⟩
      have hmem : (us s).getD 0 ∈ (req.filter (fun t => (us t).isSome)).map
          (fun t => (us t).getD 0) := by
        exact List.mem_map.mpr ⟨s, List.mem_filter.mpr ⟨hs, hsome⟩, rfl⟩
      have hz : (us s).getD 0 = 0 := by
        refine List.all_zero_of_le_zero_le_of_sum_eq_zero ?_ ?_ hmem
        · intro x hx
          rcases List.mem_map.mp hx with ⟨t, _, rfl⟩
          exact hnn t
        · exact hmw
      rw [hz] at hge
      exact absurd (of_decide_eq_true hge) (by norm_num)
    rw [calculate_skills_score_spec, htw, hpc]
    norm_num

/-- Closed witness for the skills-score totality claim, at a map carrying a
single zero-weight skill. -/
theorem skills_score_total_witness :
    calculate_skills_score zero_weight_skills [] =
      { score := 0, matching_skills := [], missing_skills := [] } ∧
    (calculate_skills_score zero_weight_skills ["X"]).score = 0 :=
  skills_score_total_no_div_by_zero zero_weight_skills ["X"]
    (by
      intro s
      rw [zero_weight_skills]
      split <;> simp)
    (by
      simp [totalWeight, matchedWeight, unknownCount, zero_weight_skills])

/-! ### Deduplication (`_deduplicate_jobs`) -/

theorem dedupLoop_key_not_seen (jobs : List RawJob) :
    ∀ seen, ∀ x ∈ dedupLoop jobs seen, dedupKey x ∉ seen := by
  induction jobs with
  | nil =>
    intro seen x hx
    simp [dedupLoop] at hx
  | cons j rest ih =>
    intro seen x hx
    by_cases h : dedupKey j ∈ seen
    · rw [dedupLoop, if_pos h] at hx
      exact ih seen x hx
    · rw [dedupLoop, if_neg h] at hx
      rcases List.mem_cons.mp hx with rfl | hx2
      · exact h
      · intro hc
        exact ih (dedupKey j :: seen) x hx2 (List.mem_cons_of_mem _ hc)

theorem dedupLoop_pairwise_keys (jobs : List RawJob) :
    ∀ seen, (dedupLoop jobs seen).Pairwise (fun x y => dedupKey x ≠ dedupKey y) := by
  induction jobs with
  | nil =>
    intro seen
    simp [dedupLoop]
  | cons j rest ih =>
    intro seen
    by_cases h : dedupKey j ∈ seen
    · rw [dedupLoop, if_pos h]
      exact ih seen
    · rw [dedupLoop, if_neg h]
      refine List.Pairwise.cons ?_ (ih _)
      intro y hy heq
      exact dedupLoop_key_not_seen rest (dedupKey j :: seen) y hy
        (heq ▸ List.mem_cons_self _ _)

theorem dedupLoop_idem (jobs : List RawJob) :
    ∀ seen, dedupLoop (dedupLoop jobs seen) seen = dedupLoop jobs seen := by
  induction jobs with
  | nil =>
    intro seen
    simp [dedupLoop]
  | cons j rest ih =>
    intro seen
    by_cases h : dedupKey j ∈ seen
    · rw [dedupLoop, if_pos h, ih]
    · rw [dedupLoop, if_neg h, dedupLoop, if_neg h, ih]

/-- C8.  `_deduplicate_jobs` is idempotent: applied to its own output it
returns that output unchanged (order included). -/
theorem dedup_idempotent :
    ∀ jobs : List RawJob, deduplicate_jobs (deduplicate_jobs jobs) = deduplicate_jobs jobs :=
  fun jobs => dedupLoop_idem jobs []

/-- C4 fails as stated: the dedup key of `_deduplicate_jobs` is the
(title-words, company, location) composite, not `source_url`, so two records
sharing a `source_url` but differing in title both survive. -/
theorem dedup_url_counterexample :
    deduplicate_jobs [rawA, rawB] = [rawA, rawB] ∧
    rawA.source_url = rawB.source_url ∧ rawA ≠ rawB := by
  refine ⟨by decide, rfl, by decide⟩

/-- C4 amended: any two records in the output of `_deduplicate_jobs` have
distinct (first-three-title-words set, company, location) keys, and for an
input with two records sharing that key (even with different `source_url`s)
only the first-seen record is kept. -/
theorem dedup_key_unique :
    (∀ jobs : List RawJob,
      (deduplicate_jobs jobs).Pairwise (fun x y => dedupKey x ≠ dedupKey y)) ∧
    deduplicate_jobs [rawA, rawC] = [rawA] ∧
    dedupKey rawA = dedupKey rawC ∧ rawA ≠ rawC :=
  ⟨fun jobs => dedupLoop_pairwise_keys jobs [], by decide, by decide, by decide⟩

/-! ### Quality filter (`_filter_quality_jobs`) -/

/-- C9 fails as stated: a record with a title but no company and a valid,
non-placeholder URL is dropped (the code rejects when title OR company is
missing, not only when both are). -/
theorem filter_quality_counterexample :
    filter_quality_jobs none [rawNoCompany] = [] ∧
    rawNoCompany.title ≠ "" ∧ rawNoCompany.source_url ≠ "" ∧
    rawNoCompany.source_url ≠ "https://example.com/job" ∧
    pyContains "example.com" rawNoCompany.source_url = false := by
  refine ⟨by decide, by decide, by decide, by decide, by decide⟩

/-- C9 amended: with no user preferences configured, `_filter_quality_jobs`
keeps exactly the records having a nonempty title AND a nonempty company AND
a `source_url` that is nonempty, differs from the placeholder URL and does
not contain `example.com`. -/
theorem filter_quality_spec :
    ∀ jobs : List RawJob,
      filter_quality_jobs none jobs = jobs.filter (fun j =>
        !(j.title = "") && !(j.company = "") && !(j.source_url = "") &&
        !(j.source_url = "https://example.com/job") &&
        !(pyContains "example.com" j.source_url)) := by
  intro jobs
  induction jobs with
  | nil => rfl
  | cons j rest ih =>
    by_cases h1 : j.title = "" <;> by_cases h2 : j.company = "" <;>
      by_cases h3 : j.source_url = "" <;>
      by_cases h4 : j.source_url = "https://example.com/job" <;>
      by_cases h5 : pyContains "example.com" j.source_url = true <;>
      simp [filter_quality_jobs, List.filter_cons, h1, h2, h3, h4, h5, ih]

/-! ### Coordinator failure isolation (`scrape_all_sources`) -/

theorem deduplicate_jobs_ne_nil (l : List RawJob) (h : l ≠ []) :
    deduplicate_jobs l ≠ [] := by
  cases l with
  | nil => exact absurd rfl h
  | cons j rest => simp [deduplicate_jobs, dedupLoop]

/-- C6.  A source whose fetch raises does not abort the run: the output equals
the run without that source, and the output is nonempty whenever some
successful source returned at least one record. -/
theorem adapter_failure_isolated (pre post : List (Except String (List RawJob)))
    (e : String) (maxPerSource : Nat) (hmax : 0 < maxPerSource) :
    scrape_all_sources (pre ++ Except.error e :: post) maxPerSource =
      scrape_all_sources (pre ++ post) maxPerSource ∧
    ∀ jobs : List RawJob, Except.ok jobs ∈ pre ++ post → jobs ≠ [] →
      scrape_all_sources (pre ++ Except.error e :: post) maxPerSource ≠ [] := by
  have heq : scrape_all_sources (pre ++ Except.error e :: post) maxPerSource =
      scrape_all_sources (pre ++ post) maxPerSource := by
    simp [scrape_all_sources, sourceJobs]
  refine ⟨heq, ?_⟩
  intro jobs hmem hne
  rw [heq]
  apply deduplicate_jobs_ne_nil
  intro hnil
  have hall := List.flatten_eq_nil_iff.mp hnil
  have hx : jobs.take maxPerSource ∈ (pre ++ post).map (sourceJobs maxPerSource) := by
    refine List.mem_map.mpr ⟨Except.ok jobs, hmem, rfl⟩
  have htake : jobs.take maxPerSource = [] := hall _ hx
  cases jobs with
  | nil => exact hne rfl
  | cons a l =>
    cases maxPerSource with
    | zero => exact absurd rfl (Nat.ne_of_gt hmax)
    | succ n => simp [List.take] at htake

/-- Closed witness: one failing source alongside one successful source. -/
theorem adapter_failure_isolated_witness :
    scrape_all_sources [Except.ok [rawA], Except.error "timeout"] 50 =
      scrape_all_sources [Except.ok [rawA]] 50 ∧
    scrape_all_sources [Except.ok [rawA], Except.error "timeout"] 50 ≠ [] := by
  have h := adapter_failure_isolated [Except.ok [rawA]] [] "timeout" 50 (by decide)
  exact ⟨h.1, h.2 [rawA] (by simp) (by decide)⟩

/-! ### Component score bounds -/

/-- Fold invariance with membership information. -/
theorem foldl_preserve_mem {α β : Type} (p : β → Prop) (f : β → α → β) :
    ∀ (l : List α), (∀ b a, a ∈ l → p b → p (f b a)) → ∀ init, p init → p (l.foldl f init)
  | [], _, _, h => h
  | a :: rest, hstep, init, h =>
    foldl_preserve_mem p f rest
      (fun b x hx hb => hstep b x (List.mem_cons_of_mem a hx) hb)
      (f init a) (hstep init a (List.mem_cons_self a rest) h)

theorem dinsert_val_mem (k : String) (v : ℚ) :
    ∀ (d : List (String × ℚ)), ∀ kv ∈ dinsert k v d, kv.2 = v ∨ kv ∈ d := by
  intro d
  induction d with
  | nil =>
    intro kv h
    rw [dinsert] at h
    rcases List.mem_singleton.mp h with rfl
    exact Or.inl rfl
  | cons p rest ih =>
    obtain ⟨k1, v1⟩ := p
    intro kv h
    rw [dinsert] at h
    by_cases hk : k1 = k
    · rw [if_pos hk] at h
      rcases List.mem_cons.mp h with rfl | h2
      · exact Or.inl rfl
      · exact Or.inr (List.mem_cons_of_mem _ h2)
    · rw [if_neg hk] at h
      rcases List.mem_cons.mp h with rfl | h2
      · exact Or.inr (List.mem_cons_self _ _)
      · rcases ih kv h2 with h3 | h3
        · exact Or.inl h3
        · exact Or.inr (List.mem_cons_of_mem _ h3)

theorem dlookup_mem (k : String) (v : ℚ) :
    ∀ (d : List (String × ℚ)), dlookup k d = some v → (k, v) ∈ d := by
  intro d
  induction d with
  | nil =>
    intro h
    simp [dlookup] at h
  | cons p rest ih =>
    obtain ⟨k1, v1⟩ := p
    intro h
    rw [dlookup] at h
    by_cases hk : k1 = k
    · rw [if_pos hk] at h
      injection h with h
      subst hk
      subst h
      exact List.mem_cons_self _ _
    · rw [if_neg hk] at h
      exact List.mem_cons_of_mem _ (ih h)

/-- Every value stored in the location-preference dictionary is 6, 8 or 10. -/
theorem build_location_values (P : UserPreferences) :
    ∀ kv ∈ build_location_preferences P, kv.2 = 6 ∨ kv.2 = 8 ∨ kv.2 = 10 := by
  have hins : ∀ (k : String) (v : ℚ) (d : List (String × ℚ)),
      (v = 6 ∨ v = 8 ∨ v = 10) → (∀ kv ∈ d, kv.2 = 6 ∨ kv.2 = 8 ∨ kv.2 = 10) →
      ∀ kv ∈ dinsert k v d, kv.2 = 6 ∨ kv.2 = 8 ∨ kv.2 = 10 := by
    intro k v d hv hd kv hkv
    rcases dinsert_val_mem k v d kv hkv with h | h
    · rw [h]; exact hv
    · exact hd kv h
  rw [build_location_preferences]
  refine foldl_preserve_mem (fun d : List (String × ℚ) => ∀ kv ∈ d, kv.2 = 6 ∨ kv.2 = 8 ∨ kv.2 = 10) _ _ ?_ _ ?_
  · intro d lt _ hd
    split
    · exact hins _ _ _ (by norm_num) hd
    · split
      · exact hins _ _ _ (by norm_num) hd
      · split
        · refine foldl_preserve_mem (fun d : List (String × ℚ) => ∀ kv ∈ d, kv.2 = 6 ∨ kv.2 = 8 ∨ kv.2 = 10)
            _ _ ?_ _ hd
          intro e loc _ he
          split
          · exact hins _ _ _ (by norm_num) he
          · exact he
        · exact hd
  · refine foldl_preserve_mem (fun d : List (String × ℚ) => ∀ kv ∈ d, kv.2 = 6 ∨ kv.2 = 8 ∨ kv.2 = 10) _ _ ?_ _ ?_
    · intro d loc _ hd
      split
      · exact hins _ _ _ (by norm_num) hd
      · exact hins _ _ _ (by norm_num) hd
    · intro kv hkv
      simp at hkv

/-- The location score, when defined, lies in [0, 10]. -/
theorem location_score_bounds (P : UserPreferences) (job : Job) (r : ℚ)
    (h : calculate_location_score P job = some r) : 0 ≤ r ∧ r ≤ 10 := by
  have hvals := build_location_values P
  rw [calculate_location_score] at h
  have hfold : 0 ≤ (build_location_preferences P).foldl
      (fun acc kv => if pyContains (pyLower kv.1)
        (pyLower (job.location ++ " " ++ job.location_type)) then max acc kv.2 else acc) 0 ∧
      (build_location_preferences P).foldl
      (fun acc kv => if pyContains (pyLower kv.1)
        (pyLower (job.location ++ " " ++ job.location_type)) then max acc kv.2 else acc) 0 ≤ 10 := by
    refine foldl_preserve_mem (fun b => 0 ≤ b ∧ b ≤ 10) _ _ ?_ _ ⟨le_refl 0, by norm_num⟩
    intro b kv hkv hb
    split
    · constructor
      · exact le_trans hb.1 (le_max_left _ _)
      · refine max_le hb.2 ?_
        rcases hvals kv hkv with h6 | h8 | h10 <;> rw [‹kv.2 = _›] <;> norm_num
    · exact hb
  split at h
  · rcases Option.map_eq_some'.mp h with ⟨w, hw, rfl⟩
    have hmem := dlookup_mem _ _ _ hw
    have hw10 := hvals _ hmem
    constructor
    · exact le_trans hfold.1 (le_max_left _ _)
    · refine max_le hfold.2 ?_
      rcases hw10 with h6 | h8 | h10 <;> simp_all <;> norm_num
  · split at h
    · rcases Option.map_eq_some'.mp h with ⟨w, hw, rfl⟩
      have hmem := dlookup_mem _ _ _ hw
      have hw10 := hvals _ hmem
      constructor
      · exact le_trans hfold.1 (le_max_left _ _)
      · refine max_le hfold.2 ?_
        rcases hw10 with h6 | h8 | h10 <;> simp_all <;> norm_num
    · injection h with h
      subst h
      exact hfold

theorem experience_score_bounds (P : UserPreferences) (job : Job) :
    0 ≤ calculate_experience_score P job ∧ calculate_experience_score P job ≤ 100 := by
  rw [calculate_experience_score]
  exact ⟨le_max_left 0 _, max_le (by norm_num) (min_le_right _ _)⟩

theorem salary_score_bounds (P : UserPreferences) (job : Job) :
    0 ≤ calculate_salary_score P job ∧ calculate_salary_score P job ≤ 15 := by
  rw [calculate_salary_score]
  split_ifs <;> (repeat' constructor) <;> simp only [] <;> (try split_ifs) <;> norm_num

theorem company_score_bounds (P : UserPreferences) (job : Job) :
    0 ≤ calculate_company_score P job ∧ calculate_company_score P job ≤ 8 := by
  rw [calculate_company_score, company_type_weight]
  split_ifs <;> norm_num

theorem user_skills_map_nonneg (P : UserPreferences) :
    ∀ s, 0 ≤ (user_skills_map P s).getD 0 := by
  intro s
  rw [user_skills_map]
  split
  · simp only [Option.getD_some]
    positivity
  · simp

/-- Inversion of `calculate_total_score`: what each field of a returned
`ScoreResult` is. -/
theorem calc_total_fields (P : UserPreferences) (job : Job) (r : ScoreResult)
    (h : calculate_total_score P job = some r) :
    r.skills_score = (calculate_skills_score (user_skills_map P) job.required_skills).score ∧
    r.experience_score = calculate_experience_score P job ∧
    calculate_location_score P job = some r.location_score ∧
    r.salary_score = calculate_salary_score P job ∧
    r.company_score = calculate_company_score P job ∧
    r.total_score =
      r.skills_score * (P.skills_weight / 100) +
      r.experience_score * (P.experience_weight / 100) +
      r.location_score * (P.location_weight / 100) +
      r.salary_score * (P.salary_weight / 100) +
      r.company_score * (P.company_weight / 100) ∧
    r.meets_minimum_requirements =
      (decide ((30:ℚ) ≤ r.skills_score) && decide ((0:ℚ) ≤ r.experience_score) &&
        decide (P.min_job_score_threshold ≤ r.total_score)) ∧
    r.recommended_for_application =
      (decide (P.min_job_score_threshold + 20 ≤ r.total_score) &&
        r.meets_minimum_requirements) := by
  rw [calculate_total_score] at h
  rcases Option.map_eq_some'.mp h with ⟨loc, hloc, rfl⟩
  exact ⟨rfl, rfl, hloc, rfl, rfl, rfl, rfl, rfl⟩

/-! ### Concrete evaluations of the scorer -/

theorem skillsA : calculate_skills_score (user_skills_map profileA) jobA.required_skills =
    ⟨100, ["Python"], []⟩ := by
  rw [calculate_skills_score_spec]
  norm_num [matchedWeight, totalWeight, unknownCount, primaryCount, user_skills_map,
    profileA, jobA, List.countP_cons]

theorem expA : calculate_experience_score profileA jobA = 15 := by
  simp +decide [calculate_experience_score, experience_level_weight, profileA, jobA,
    entry_keywords]

theorem locA : calculate_location_score profileA jobA = some 0 := by
  simp +decide [calculate_location_score, build_location_preferences, profileA, jobA]

theorem salA : calculate_salary_score profileA jobA = 10 := by
  simp +decide [calculate_salary_score, build_salary_target, optTruthy, profileA, jobA]

theorem compA : calculate_company_score profileA jobA = 3 := by
  simp +decide [calculate_company_score, company_type_weight, profileA, jobA]

theorem calc_total_profileA : calculate_total_score profileA jobA = some scoreA := by
  simp only [calculate_total_score, skillsA, expA, locA, salA, compA, Option.map_some]
  simp only [Option.some.injEq, scoreA]
  norm_num [profileA, ScoreResult.mk.injEq]

theorem skillsW100 :
    calculate_skills_score (user_skills_map profileW100) jobPlain.required_skills =
      ⟨0, [], []⟩ := by
  simp [calculate_skills_score, jobPlain, jobA]

theorem expW100 : calculate_experience_score profileW100 jobPlain = 15 := by
  simp +decide [calculate_experience_score, experience_level_weight, profileW100, profileA,
    jobPlain, jobA, entry_keywords]

theorem locW100 : calculate_location_score profileW100 jobPlain = some 0 := by
  simp +decide [calculate_location_score, build_location_preferences, profileW100, profileA,
    jobPlain, jobA]

theorem salW100 : calculate_salary_score profileW100 jobPlain = 5 := by
  simp +decide [calculate_salary_score, build_salary_target, optTruthy, profileW100, profileA,
    jobPlain, jobA]

theorem compW100 : calculate_company_score profileW100 jobPlain = 3 := by
  simp +decide [calculate_company_score, company_type_weight, profileW100, profileA,
    jobPlain, jobA]

theorem calc_total_profileW100 :
    calculate_total_score profileW100 jobPlain = some scoreW100 := by
  simp only [calculate_total_score, skillsW100, expW100, locW100, salW100, compW100,
    Option.map_some]
  simp only [Option.some.injEq, scoreW100]
  norm_num [profileW100, profileA, ScoreResult.mk.injEq]

theorem skillsW200 :
    calculate_skills_score (user_skills_map profileW200) jobA.required_skills =
      ⟨100, ["Python"], []⟩ := by
  rw [calculate_skills_score_spec]
  norm_num [matchedWeight, totalWeight, unknownCount, primaryCount, user_skills_map,
    profileW200, profileA, jobA, List.countP_cons]

theorem expW200 : calculate_experience_score profileW200 jobA = 15 := by
  simp +decide [calculate_experience_score, experience_level_weight, profileW200, profileA,
    jobA, entry_keywords]

theorem locW200 : calculate_location_score profileW200 jobA = some 0 := by
  simp +decide [calculate_location_score, build_location_preferences, profileW200, profileA,
    jobA]

theorem salW200 : calculate_salary_score profileW200 jobA = 10 := by
  simp +decide [calculate_salary_score, build_salary_target, optTruthy, profileW200, profileA,
    jobA]

theorem compW200 : calculate_company_score profileW200 jobA = 3 := by
  simp +decide [calculate_company_score, company_type_weight, profileW200, profileA, jobA]

theorem calc_total_profileW200 :
    calculate_total_score profileW200 jobA = some scoreW200 := by
  simp only [calculate_total_score, skillsW200, expW200, locW200, salW200, compW200,
    Option.map_some]
  simp only [Option.some.injEq, scoreW200]
  norm_num [profileW200, profileA, ScoreResult.mk.injEq]

theorem skillsSenior :
    calculate_skills_score (user_skills_map profileSenior) jobSenior.required_skills =
      ⟨100, ["Python"], []⟩ := by
  rw [calculate_skills_score_spec]
  norm_num [matchedWeight, totalWeight, unknownCount, primaryCount, user_skills_map,
    profileSenior, profileA, jobSenior, jobA, List.countP_cons]

theorem expSenior : calculate_experience_score profileSenior jobSenior = 0 := by
  simp +decide [calculate_experience_score, experience_level_weight, profileSenior, profileA,
    jobSenior, jobA, entry_keywords]

theorem locSenior : calculate_location_score profileSenior jobSenior = some 0 := by
  simp +decide [calculate_location_score, build_location_preferences, profileSenior, profileA,
    jobSenior, jobA]

theorem salSenior : calculate_salary_score profileSenior jobSenior = 10 := by
  simp +decide [calculate_salary_score, build_salary_target, optTruthy, profileSenior, profileA,
    jobSenior, jobA]

theorem compSenior : calculate_company_score profileSenior jobSenior = 3 := by
  simp +decide [calculate_company_score, company_type_weight, profileSenior, profileA,
    jobSenior, jobA]

theorem calc_total_profileSenior :
    calculate_total_score profileSenior jobSenior = some scoreSenior := by
  simp only [calculate_total_score, skillsSenior, expSenior, locSenior, salSenior, compSenior,
    Option.map_some]
  simp only [Option.some.injEq, scoreSenior]
  norm_num [profileSenior, profileA, ScoreResult.mk.injEq]

/-! ### Total-score claims -/

/-- C1 fails as stated: `JobScorer.__init__` divides each category weight by
the constant 100, not by the sum of the five weights.  With all five weights
set to 100 (sum 500) the code returns total 23 while the sum-normalized
formula gives 23/5; rescaling all weights by a common factor rescales the
code's total. -/
theorem total_not_normalized_counterexample :
    profileW100.skills_weight + profileW100.experience_weight + profileW100.location_weight +
      profileW100.salary_weight + profileW100.company_weight = 500 ∧
    (calculate_total_score profileW100 jobPlain).map ScoreResult.total_score = some 23 ∧
    spec_normalized_total profileW100 jobPlain = some (23/5) ∧
    (23:ℚ) ≠ 23/5 := by
  refine ⟨by norm_num [profileW100, profileA], ?_, ?_, by norm_num⟩
  · rw [calc_total_profileW100]
    simp [scoreW100]
  · rw [spec_normalized_total, calc_total_profileW100]
    simp only [Option.map_some, Option.some.injEq, scoreW100]
    norm_num [profileW100, profileA]

/-- C1 amended: the total equals Σ component × (weight / 100); this coincides
with the spec's sum-normalized formula exactly when the five category weights
sum to 100 (the model default), and is not invariant under rescaling
otherwise. -/
theorem total_normalized_when_sum_100 (P : UserPreferences) (job : Job)
    (hsum : P.skills_weight + P.experience_weight + P.location_weight +
      P.salary_weight + P.company_weight = 100) :
    (calculate_total_score P job).map ScoreResult.total_score =
      spec_normalized_total P job := by
  rw [spec_normalized_total, hsum]
  cases h : calculate_total_score P job with
  | none => rfl
  | some r =>
    obtain ⟨-, -, -, -, -, htot, -, -⟩ := calc_total_fields P job r h
    show some r.total_score = some _
    rw [htot]

/-- Closed witness: with the default 45/25/15/10/5 weights (sum 100) the
code's total agrees with the sum-normalized formula. -/
theorem total_normalized_witness :
    (calculate_total_score profileA jobA).map ScoreResult.total_score =
      spec_normalized_total profileA jobA :=
  total_normalized_when_sum_100 profileA jobA (by norm_num [profileA])

/-- C2 fails as stated: nonnegative weights alone do not bound the total by
100 — with weights (200, 0, 0, 0, 0) a perfect skills match yields total 200. -/
theorem score_bounds_counterexample :
    (0 ≤ profileW200.skills_weight ∧ 0 ≤ profileW200.experience_weight ∧
      0 ≤ profileW200.location_weight ∧ 0 ≤ profileW200.salary_weight ∧
      0 ≤ profileW200.company_weight) ∧
    (calculate_total_score profileW200 jobA).map ScoreResult.total_score = some 200 ∧
    ¬((200:ℚ) ≤ 100) := by
  refine ⟨by norm_num [profileW200, profileA], ?_, by norm_num⟩
  rw [calc_total_profileW200]
  simp [scoreW200]

/-- C2 amended: every component score lies in [0, 100] unconditionally, and
the total lies in [0, 100] provided the five nonnegative category weights sum
to at most 100. -/
theorem score_bounds (P : UserPreferences) (job : Job) (r : ScoreResult)
    (hw1 : 0 ≤ P.skills_weight) (hw2 : 0 ≤ P.experience_weight)
    (hw3 : 0 ≤ P.location_weight) (hw4 : 0 ≤ P.salary_weight)
    (hw5 : 0 ≤ P.company_weight)
    (hsum : P.skills_weight + P.experience_weight + P.location_weight +
      P.salary_weight + P.company_weight ≤ 100)
    (h : calculate_total_score P job = some r) :
    (0 ≤ r.skills_score ∧ r.skills_score ≤ 100) ∧
    (0 ≤ r.experience_score ∧ r.experience_score ≤ 100) ∧
    (0 ≤ r.location_score ∧ r.location_score ≤ 100) ∧
    (0 ≤ r.salary_score ∧ r.salary_score ≤ 100) ∧
    (0 ≤ r.company_score ∧ r.company_score ≤ 100) ∧
    (0 ≤ r.total_score ∧ r.total_score ≤ 100) := by
  obtain ⟨hsk, hexp, hloc, hsal, hcomp, htot, -, -⟩ := calc_total_fields P job r h
  have bsk := skills_score_bounds (user_skills_map P) job.required_skills
    (user_skills_map_nonneg P)
  have bexp := experience_score_bounds P job
  have bloc := location_score_bounds P job r.location_score hloc
  have bsal := salary_score_bounds P job
  have bcomp := company_score_bounds P job
  rw [← hsk] at bsk
  rw [← hexp] at bexp
  rw [← hsal] at bsal
  rw [← hcomp] at bcomp
  have c1 : 0 ≤ r.skills_score ∧ r.skills_score ≤ 100 := bsk
  have c2 : 0 ≤ r.experience_score ∧ r.experience_score ≤ 100 := bexp
  have c3 : 0 ≤ r.location_score ∧ r.location_score ≤ 100 :=
    ⟨bloc.1, le_trans bloc.2 (by norm_num)⟩
  have c4 : 0 ≤ r.salary_score ∧ r.salary_score ≤ 100 :=
    ⟨bsal.1, le_trans bsal.2 (by norm_num)⟩
  have c5 : 0 ≤ r.company_score ∧ r.company_score ≤ 100 :=
    ⟨bcomp.1, le_trans bcomp.2 (by norm_num)⟩
  have hterm : ∀ (c w : ℚ), 0 ≤ c → c ≤ 100 → 0 ≤ w →
      0 ≤ c * (w / 100) ∧ c * (w / 100) ≤ w := by
    intro c w hc hc100 hw
    have hdiv : (0:ℚ) ≤ w / 100 := by positivity
    refine ⟨mul_nonneg hc hdiv, ?_⟩
    have hmul : c * (w / 100) ≤ 100 * (w / 100) := mul_le_mul_of_nonneg_right hc100 hdiv
    have hcan : (100:ℚ) * (w / 100) = w := by ring
    linarith
  have t1 := hterm _ _ c1.1 c1.2 hw1
  have t2 := hterm _ _ c2.1 c2.2 hw2
  have t3 := hterm _ _ c3.1 c3.2 hw3
  have t4 := hterm _ _ c4.1 c4.2 hw4
  have t5 := hterm _ _ c5.1 c5.2 hw5
  refine ⟨c1, c2, c3, c4, c5, ?_, ?_⟩
  · rw [htot]
    linarith [t1.1, t2.1, t3.1, t4.1, t5.1]
  · rw [htot]
    linarith [t1.2, t2.2, t3.2, t4.2, t5.2]

/-- Closed witness for the amended score bounds at the default profile. -/
theorem score_bounds_witness :
    (0 ≤ scoreA.skills_score ∧ scoreA.skills_score ≤ 100) ∧
    (0 ≤ scoreA.experience_score ∧ scoreA.experience_score ≤ 100) ∧
    (0 ≤ scoreA.location_score ∧ scoreA.location_score ≤ 100) ∧
    (0 ≤ scoreA.salary_score ∧ scoreA.salary_score ≤ 100) ∧
    (0 ≤ scoreA.company_score ∧ scoreA.company_score ≤ 100) ∧
    (0 ≤ scoreA.total_score ∧ scoreA.total_score ≤ 100) :=
  score_bounds profileA jobA scoreA
    (by norm_num [profileA]) (by norm_num [profileA]) (by norm_num [profileA])
    (by norm_num [profileA]) (by norm_num [profileA]) (by norm_num [profileA])
    calc_total_profileA

/-- C3.  `recommended_for_application` implies `meets_minimum_requirements`,
and holds exactly when the latter does and the total reaches the profile's
minimum threshold plus the fixed margin 20. -/
theorem recommended_implies_minimum (P : UserPreferences) (job : Job) (r : ScoreResult)
    (h : calculate_total_score P job = some r) :
    (r.recommended_for_application = true → r.meets_minimum_requirements = true) ∧
    (r.recommended_for_application = true ↔
      r.meets_minimum_requirements = true ∧
        P.min_job_score_threshold + 20 ≤ r.total_score) := by
  obtain ⟨-, -, -, -, -, -, -, hrec⟩ := calc_total_fields P job r h
  constructor
  · intro hr
    rw [hrec] at hr
    exact (Bool.and_eq_true_iff.mp hr).2
  · rw [hrec]
    simp only [Bool.and_eq_true, decide_eq_true_eq]
    exact and_comm

/-- Closed witness for the recommendation flags at the default profile. -/
theorem recommended_implies_minimum_witness :
    (scoreA.recommended_for_application = true → scoreA.meets_minimum_requirements = true) ∧
    (scoreA.recommended_for_application = true ↔
      scoreA.meets_minimum_requirements = true ∧
        profileA.min_job_score_threshold + 20 ≤ scoreA.total_score) :=
  recommended_implies_minimum profileA jobA scoreA calc_total_profileA

/-- C5.  The experience score of a senior posting against an entry/junior
profile is indeed clamped to 0 (first conjunct, fully generally), but
`meets_minimum_requirements` is NOT forced to false: the `experience_score >=
0` check of `calculate_total_score` runs after the clamp to [0, 100] and is
therefore vacuous — on the concrete strong-match senior posting the code
returns `meets_minimum_requirements = true`, contradicting the claim and the
code's own `# Not senior level` comment. -/
theorem senior_meets_minimum_divergence :
    (∀ (P : UserPreferences) (job : Job),
      calculate_experience_score { P with experience_levels := ["entry", "junior"] }
        { job with experience_level := "senior" } = 0) ∧
    calculate_experience_score profileSenior jobSenior = 0 ∧
    (calculate_total_score profileSenior jobSenior).map
      ScoreResult.meets_minimum_requirements = some true := by
  refine ⟨?_, expSenior, ?_⟩
  · intro P job
    rw [calculate_experience_score]
    have hw : experience_level_weight { P with experience_levels := ["entry", "junior"] }
        ({ job with experience_level := "senior" } : Job).experience_level = -20 := by
      simp +decide [experience_level_weight]
    rw [hw]
    split_ifs <;> norm_num
  · rw [calc_total_profileSenior]
    simp [scoreSenior]
